import Mathlib

/-!
Tap & Travel: seat selection, gender rule, payment hand-off, ticket issuance

A shallow embedding of the booking workflow of the mobile client:

* `src/Screens/BookTicket/BookTicket.js`: `toggleSeatSelection`,
  `handleGenderAssignment`, `handleGenderSelection` and the pieces of the
  render function that decide which handlers can be reached;
* `src/Components/Payment.js`: `initializePaymentSheet`, `openPaymentSheet`,
  `handleTicketGeneration`.

JavaScript values are embedded as follows.  A string-or-null field (`gender`,
`neighborGender`, the decoded token fields) is an `Option String`, `none`
standing for `null`/`undefined`.  A number is a `JsNumber`, a double with its
exact value, and the one product of the workflow,
`selectedSeats.length * fare.actualPrice`, is `lengthTimes`.  React state is
passed explicitly; every
handler runs against the state of the last render, which is how discrete
press events are delivered.  Effects on the outside world (toasts, navigation,
HTTP requests, console output) are returned as values.
-/

set_option autoImplicit false

namespace TapAndTravel

/-! ## JavaScript helpers -/

/-- JavaScript truthiness of a string-or-null value: `null`, `undefined` and
the empty string are falsy, every other string is truthy. -/
def truthy : Option String → Bool
  | none => false
  | some s => s != ""

/-- Pieces of `cs.split("-")` on the characters of a string. -/
def splitDash : List Char → List (List Char)
  | [] => [[]]
  | c :: cs =>
    if c = '-' then [] :: splitDash cs
    else
      match splitDash cs with
      | [] => [[c]]
      | h :: t => (c :: h) :: t

/-- The text that a template literal shows for `s.split("-")[1]`: the second
piece, or `undefined` when the string holds no dash. -/
def splitDashSecond (s : String) : String :=
  match splitDash s.data with
  | _ :: p :: _ => String.mk p
  | _ => "undefined"

/-- A JavaScript number, an IEEE 754 double: a finite number is
`mantissa * 2 ^ exponent` with its sign kept apart (so that `-0` exists), and a
double has `mantissa < 2 ^ 53` and `-1074 ≤ exponent ≤ 971`. -/
inductive JsNumber where
  | finite (negative : Bool) (mantissa : Nat) (exponent : Int)
  | infinite (negative : Bool)
  | nan
  deriving DecidableEq, Repr

/-- The number that a whole non-negative literal denotes. -/
def JsNumber.whole (n : Nat) : JsNumber :=
  JsNumber.finite false n 0

/-- Whether a finite representation is within the range of a double. -/
def JsNumber.isDouble : JsNumber → Bool
  | JsNumber.finite _ mantissa exponent =>
    decide (mantissa < 2 ^ 53) && decide (-1074 ≤ exponent) && decide (exponent ≤ 971)
  | _ => true

/-- The exact value of a finite number; `none` for `NaN` and the infinities. -/
def JsNumber.value : JsNumber → Option ℚ
  | JsNumber.finite negative mantissa exponent =>
    some ((if negative then -1 else 1) * (mantissa : ℚ) * (2 : ℚ) ^ exponent)
  | _ => none

/-- Number of binary digits of a number, with `fuel` bounding the halvings. -/
def bitLengthAux : Nat → Nat → Nat
  | 0, _ => 0
  | fuel + 1, n => if n = 0 then 0 else bitLengthAux fuel (n / 2) + 1

/-- Number of binary digits of a number: 0 for 0, `k` for `2 ^ (k-1) ≤ n < 2 ^ k`. -/
def bitLength (n : Nat) : Nat :=
  bitLengthAux n n

/-- The double nearest to `mantissa * 2 ^ exponent`, ties to the even
significand: the binary digits beyond 53 significant ones are rounded away, and
a result of `2 ^ 1024` or more (leading digit at position 1024 or above) is an
infinity. -/
def roundToDouble (negative : Bool) (mantissa : Nat) (exponent : Int) : JsNumber :=
  let shift := bitLength mantissa - 53
  let q := mantissa / 2 ^ shift
  let r := mantissa % 2 ^ shift
  let rounded := if 2 * r > 2 ^ shift ∨ (2 * r = 2 ^ shift ∧ q % 2 = 1) then q + 1 else q
  if rounded ≠ 0 ∧ (bitLength rounded : Int) + exponent + shift > 1024 then
    JsNumber.infinite negative
  else if rounded = 2 ^ 53 then JsNumber.finite negative (2 ^ 52) (exponent + shift + 1)
  else JsNumber.finite negative rounded (exponent + shift)

/-- The JavaScript product `length * x` of an array length and a number: the
exact product rounded to the nearest double. -/
def lengthTimes (length : Nat) : JsNumber → JsNumber
  | JsNumber.nan => JsNumber.nan
  | JsNumber.infinite negative => if length = 0 then JsNumber.nan else JsNumber.infinite negative
  | JsNumber.finite negative mantissa exponent =>
    roundToDouble negative (length * mantissa) exponent

/-! ## Data model -/

/-- A seat object as delivered by `GET /bus/:busId` and as kept in
`selectedSeats` (there `gender` is the provisional gender). -/
structure Seat where
  seatNumber : String
  booked : Bool
  gender : Option String
  neighborGender : Option String
  deriving DecidableEq, Repr

/-- The `fare` object of a bus. -/
structure Fare where
  actualPrice : JsNumber
  deriving DecidableEq, Repr

/-- The `busDetails` object of a bus. -/
structure BusDetails where
  adminId : Option String
  deriving DecidableEq, Repr

/-- The `selectedBus` state once loaded. -/
structure Bus where
  seats : List Seat
  fare : Fare
  busDetails : Option BusDetails
  deriving DecidableEq, Repr

/-- The fields read from the decoded JWT. -/
structure Decoded where
  sub : Option String
  name : Option String
  email : Option String
  deriving DecidableEq, Repr

/-- A `Toast.show` call. -/
structure Toast where
  type : String
  text1 : Option String
  text2 : Option String
  deriving DecidableEq, Repr

/-- The route parameters handed to `PaymentScreen`. -/
structure PaymentParams where
  busId : String
  userId : Option String
  userName : Option String
  email : Option String
  amount : JsNumber
  adminId : Option String
  selectedSeats : List Seat
  deriving DecidableEq, Repr

/-- The React state of the `BookTicket` screen that the handlers touch. -/
structure Screen where
  selectedSeats : List Seat
  currentSeatForGender : Option Seat
  genderModalVisible : Bool
  deriving DecidableEq, Repr

/-! ## `BookTicket.js` -/

/-- `toggleSeatSelection(seat)` on the selection list: a booked seat returns
at once; a seat found by number is filtered out; any other seat is appended
with `gender: null`. -/
def toggleSeatSelection (selectedSeats : List Seat) (seat : Seat) : List Seat :=
  if seat.booked then selectedSeats
  else
    let alreadySelected := selectedSeats.find? (fun s => s.seatNumber == seat.seatNumber)
    if alreadySelected.isSome then
      selectedSeats.filter (fun s => s.seatNumber != seat.seatNumber)
    else
      selectedSeats ++ [{ seat with gender := none }]

/-- What `handleGenderAssignment` did. -/
inductive AssignmentOutcome where
  | noToken
  | decodeThrew
  | toastShown (t : Toast)
  | navigated (screen : String) (params : PaymentParams)
  deriving DecidableEq, Repr

/-- `selectedSeats.every(seat => seat.gender)`. -/
def allSeatsHaveGender (selectedSeats : List Seat) : Bool :=
  selectedSeats.all (fun seat => truthy seat.gender)

/-- `handleGenderAssignment()`.  `token` is what `AsyncStorage.getItem("token")`
resolved to; `jwtDecode` is the decoder of the `jwt-decode` package, `none`
standing for a thrown error. -/
def handleGenderAssignment (jwtDecode : String → Option Decoded) (token : Option String)
    (busId : String) (selectedBus : Bus) (selectedSeats : List Seat) : AssignmentOutcome :=
  if !truthy token then AssignmentOutcome.noToken
  else
    match jwtDecode (token.getD "") with
    | none => AssignmentOutcome.decodeThrew
    | some decoded =>
      if !allSeatsHaveGender selectedSeats then
        AssignmentOutcome.toastShown
          { type := "error", text1 := some "Please assign gender for all selected seats",
            text2 := none }
      else
        let totalAmount := lengthTimes selectedSeats.length selectedBus.fare.actualPrice
        AssignmentOutcome.navigated "PaymentScreen"
          { busId := busId, userId := decoded.sub, userName := decoded.name,
            email := decoded.email, amount := totalAmount,
            adminId := selectedBus.busDetails.bind (fun d => d.adminId),
            selectedSeats := selectedSeats }

/-- The render gate `selectedSeats.length > 0 && (...)` around the selection
panel that holds the "Confirm Your Bookings" button. -/
def confirmButtonRendered (selectedSeats : List Seat) : Bool :=
  decide (selectedSeats.length > 0)

/-- What `handleGenderSelection` did. -/
inductive SelectionOutcome where
  | ignored
  | rejected (t : Toast)
  | accepted
  deriving DecidableEq, Repr

/-- `handleGenderSelection(gender)`: the new screen state together with what
happened. -/
def handleGenderSelection (st : Screen) (gender : String) : Screen × SelectionOutcome :=
  match st.currentSeatForGender with
  | none => (st, SelectionOutcome.ignored)
  | some cur =>
    let neighborGender := cur.neighborGender
    if truthy neighborGender && (neighborGender != some gender) then
      (st, SelectionOutcome.rejected
        { type := "error",
          text1 := some ("Seat " ++ splitDashSecond cur.seatNumber ++ ": Must select " ++
            (if neighborGender == some "M" then "Male" else "Female")),
          text2 := none })
    else
      ({ selectedSeats := st.selectedSeats.map (fun seat =>
            if seat.seatNumber == cur.seatNumber then { seat with gender := some gender }
            else seat),
         currentSeatForGender := none,
         genderModalVisible := false },
       SelectionOutcome.accepted)

/-- The press handler of a chip of the selection panel: the chip shows an entry
of `selectedSeats`, which becomes the seat under assignment. -/
def pressChip (st : Screen) (seat : Seat) : Screen :=
  { st with currentSeatForGender := some seat, genderModalVisible := true }

/-- The Cancel button and `onRequestClose` of the gender modal. -/
def closeGenderModal (st : Screen) : Screen :=
  { st with currentSeatForGender := none, genderModalVisible := false }

/-! ## The screen as a transition system -/

/-- A press that reaches one of the handlers of the screen. -/
inductive Event where
  /-- Press of the seat at position `i` of the seat grid. -/
  | tapSeat (i : Nat)
  /-- Press of the chip at position `i` of the selection panel. -/
  | tapChip (i : Nat)
  /-- The "Male" button of the gender modal: `handleGenderSelection("M")`. -/
  | pressMale
  /-- The "Female" button of the gender modal: `handleGenderSelection("F")`. -/
  | pressFemale
  /-- The Cancel button of the gender modal. -/
  | cancelModal
  deriving DecidableEq, Repr

/-- The state of the first render: `useState([])`, `useState(null)`,
`useState(false)`. -/
def initialScreen : Screen :=
  { selectedSeats := [], currentSeatForGender := none, genderModalVisible := false }

/-- One press, handled against the current state. -/
def step (bus : Bus) (st : Screen) : Event → Screen
  | Event.tapSeat i =>
    match bus.seats.get? i with
    | some seat => { st with selectedSeats := toggleSeatSelection st.selectedSeats seat }
    | none => st
  | Event.tapChip i =>
    match st.selectedSeats.get? i with
    | some seat => pressChip st seat
    | none => st
  | Event.pressMale => (handleGenderSelection st "M").1
  | Event.pressFemale => (handleGenderSelection st "F").1
  | Event.cancelModal => closeGenderModal st

/-- The state after a sequence of presses. -/
def run (bus : Bus) (st : Screen) : List Event → Screen
  | [] => st
  | e :: es => run bus (step bus st e) es

/-- Whether a press is not a rejected gender assignment. -/
def notRejected (st : Screen) : Event → Bool
  | Event.pressMale =>
    match (handleGenderSelection st "M").2 with
    | SelectionOutcome.rejected _ => false
    | _ => true
  | Event.pressFemale =>
    match (handleGenderSelection st "F").2 with
    | SelectionOutcome.rejected _ => false
    | _ => true
  | _ => true

/-- No gender assignment of the sequence is rejected. -/
def allAccepted (bus : Bus) (st : Screen) : List Event → Bool
  | [] => true
  | e :: es => notRejected st e && allAccepted bus (step bus st e) es

/-! ## Adjacency of seats -/

/-- Value of a string of decimal digits read from the left, `none` when a
character is not a digit. -/
def digitsValue : Nat → List Char → Option Nat
  | acc, [] => some acc
  | acc, c :: cs =>
    if '0' ≤ c ∧ c ≤ '9' then digitsValue (acc * 10 + (c.toNat - '0'.toNat)) cs else none

/-- Row label of a seat number such as `R3-2`: the text before the dash. -/
def rowOf (seatNumber : String) : List Char :=
  (splitDash seatNumber.data).headD []

/-- Column of a seat number such as `R3-2`: the number after the dash. -/
def colOf (seatNumber : String) : Option Nat :=
  match splitDash seatNumber.data with
  | _ :: (d :: ds) :: _ => digitsValue 0 (d :: ds)
  | _ => none

/-- Modelled from the spec: `neighborOf` is not part of the client (the seat
map arrives with `neighborGender` already filled in).  Following the row and
column encoding of `seatNumber` and the single neighbour of every seat, two
seats are adjacent when they name the same row and their columns form a pair
`2k-1`, `2k`. -/
def adjacent (a b : String) : Bool :=
  rowOf a == rowOf b &&
  match colOf a, colOf b with
  | some ca, some cb => (ca % 2 == 1 && cb == ca + 1) || (cb % 2 == 1 && ca == cb + 1)
  | _, _ => false

/-- Genders of the seats of the loaded seat map that are booked with a gender. -/
def bookedSeats (bus : Bus) : List Seat :=
  bus.seats.filter (fun s => s.booked && truthy s.gender)

/-- Selected seats that carry a provisional gender. -/
def assignedSeats (selectedSeats : List Seat) : List Seat :=
  selectedSeats.filter (fun s => truthy s.gender)

/-- The gender rule on a seat map and a selection: any two adjacent seats that
are both booked or assigned hold the same gender. -/
def genderRuleHolds (bus : Bus) (selectedSeats : List Seat) : Bool :=
  let occupied := bookedSeats bus ++ assignedSeats selectedSeats
  occupied.all (fun a => occupied.all (fun b =>
    !adjacent a.seatNumber b.seatNumber || a.gender == b.gender))

/-- The `neighborGender` field of every seat of the map shows the gender of a
booked adjacent seat, as the data model derives it. -/
def neighborGenderDerived (bus : Bus) : Bool :=
  bus.seats.all (fun s => (bookedSeats bus).all (fun nb =>
    !adjacent s.seatNumber nb.seatNumber || s.neighborGender == nb.gender))

/-- What the screen keeps of the loaded seat map: every selected seat and the
seat under assignment carry the number and `neighborGender` of a seat of the
map, and a selected seat whose gender and `neighborGender` are both set has
them equal. -/
def SnapshotInv (bus : Bus) (st : Screen) : Prop :=
  (∀ s ∈ st.selectedSeats, ∃ b ∈ bus.seats,
      b.seatNumber = s.seatNumber ∧ b.neighborGender = s.neighborGender) ∧
  (∀ cur, st.currentSeatForGender = some cur → ∃ b ∈ bus.seats,
      b.seatNumber = cur.seatNumber ∧ b.neighborGender = cur.neighborGender) ∧
  (∀ s ∈ st.selectedSeats, truthy s.gender = true → truthy s.neighborGender = true →
      s.gender = s.neighborGender)

/-! ## `Payment.js` -/

/-- The props of the `Payment` component that `handleTicketGeneration` reads. -/
structure PaymentProps where
  userId : Option String
  email : Option String
  busId : String
  selectedSeats : Option (List Seat)
  deriving DecidableEq, Repr

/-- One entry of `seatsData`. -/
structure SeatUpdate where
  seatNumber : String
  booked : Bool
  email : Option String
  gender : Option String
  deriving DecidableEq, Repr

/-- Body of `PATCH /bus/update-seat-status`. -/
structure SeatPayload where
  busId : String
  seatsData : List SeatUpdate
  deriving DecidableEq, Repr

/-- One entry of `tickets`. -/
structure TicketRequest where
  userId : Option String
  busId : String
  seatNumber : String
  deriving DecidableEq, Repr

/-- Body of `POST /ticket/generate`. -/
structure TicketBody where
  tickets : List TicketRequest
  deriving DecidableEq, Repr

/-- What `handleTicketGeneration` does to the outside world, in order. -/
inductive Effect where
  | toast (t : Toast)
  | patch (url : String) (payload : SeatPayload)
  | post (url : String) (body : TicketBody)
  | consoleError (label : String) (error : String)
  | navigate (name : String) (screen : String)
  deriving DecidableEq, Repr

/-- The two backend calls: each answers a request with a thrown error or with
a response. -/
structure Backend where
  updateSeatStatus : SeatPayload → Except String Unit
  generateTicket : TicketBody → Except String Unit

/-- The error toast of the `catch` block. -/
def bookingErrorToast : Toast :=
  { type := "error", text1 := some "Something went wrong while booking tickets.",
    text2 := none }

/-- The success toast. -/
def ticketSuccessToast : Toast :=
  { type := "success", text1 := none,
    text2 := some "Your ticket has been successfully generated." }

/-- The `seatPayload` object. -/
def seatPayload (props : PaymentProps) (selectedSeats : List Seat) : SeatPayload :=
  { busId := props.busId,
    seatsData := selectedSeats.map (fun seat =>
      { seatNumber := seat.seatNumber, booked := true, email := props.email,
        gender := seat.gender }) }

/-- The `ticketBody` object. -/
def ticketBody (props : PaymentProps) (selectedSeats : List Seat) : TicketBody :=
  { tickets := selectedSeats.map (fun seat =>
      { userId := props.userId, busId := props.busId, seatNumber := seat.seatNumber }) }

/-- `handleTicketGeneration()`: the effects in the order they happen.  The
`try` block stops at the first call that throws; `apiBaseUrl` is the constant
of `config/urls`. -/
def handleTicketGeneration (apiBaseUrl : String) (backend : Backend) (props : PaymentProps) :
    List Effect :=
  match props.selectedSeats with
  | none | some [] =>
    [Effect.toast { type := "error", text1 := some "No Seats Selected",
                    text2 := some "Please select at least one seat." }]
  | some (seat :: rest) =>
    let selectedSeats := seat :: rest
    let payload := seatPayload props selectedSeats
    match backend.updateSeatStatus payload with
    | Except.error err =>
      [Effect.patch "/bus/update-seat-status" payload,
       Effect.consoleError "Error generating tickets:" err,
       Effect.toast bookingErrorToast]
    | Except.ok _ =>
      let body := ticketBody props selectedSeats
      match backend.generateTicket body with
      | Except.error err =>
        [Effect.patch "/bus/update-seat-status" payload,
         Effect.post (apiBaseUrl ++ "/ticket/generate") body,
         Effect.consoleError "Error generating tickets:" err,
         Effect.toast bookingErrorToast]
      | Except.ok _ =>
        [Effect.patch "/bus/update-seat-status" payload,
         Effect.post (apiBaseUrl ++ "/ticket/generate") body,
         Effect.toast ticketSuccessToast,
         Effect.navigate "MainTabs" "Ticket"]

/-- What the user is shown: the toasts and the navigation. -/
def reported (effects : List Effect) : List Effect :=
  effects.filter (fun e =>
    match e with
    | Effect.toast _ => true
    | Effect.navigate _ _ => true
    | _ => false)

/-- The lines written with `console.error`. -/
def consoleLines (effects : List Effect) : List Effect :=
  effects.filter (fun e =>
    match e with
    | Effect.consoleError _ _ => true
    | _ => false)

/-- The requests sent to the seat-commit endpoint. -/
def commitRequests (effects : List Effect) : List Effect :=
  effects.filter (fun e =>
    match e with
    | Effect.patch _ _ => true
    | _ => false)

/-- The requests sent to the ticket endpoint. -/
def ticketRequests (effects : List Effect) : List Effect :=
  effects.filter (fun e =>
    match e with
    | Effect.post _ _ => true
    | _ => false)

/-- The run reports success and navigates to the ticket view. -/
def succeeded (effects : List Effect) : Bool :=
  effects.contains (Effect.toast ticketSuccessToast) &&
  effects.contains (Effect.navigate "MainTabs" "Ticket")

/-! ## `Payment.js`: the payment sheet -/

/-- Body of `POST /payment/create-payment-intent`. -/
structure IntentRequest where
  amount : JsNumber
  busId : String
  userId : Option String
  adminId : Option String
  deriving DecidableEq, Repr

/-- The fields read from the response of the payment-intent request. -/
structure IntentData where
  clientSecret : Option String
  ephemeralKey : Option String
  customer : Option String
  deriving DecidableEq, Repr

/-- The argument of `initPaymentSheet`. -/
structure SheetParams where
  paymentIntentClientSecret : Option String
  customerId : Option String
  customerEphemeralKeySecret : Option String
  merchantDisplayName : String
  deriving DecidableEq, Repr

/-- The `error` object that the payment provider reports. -/
structure SheetError where
  message : Option String
  deriving DecidableEq, Repr

/-- The two functions of `useStripe()`: each answers with its `error`, `none`
when it reports none. -/
structure Provider where
  initPaymentSheet : SheetParams → Option SheetError
  presentPaymentSheet : Option SheetError

/-- The payment-intent endpoint: a thrown error or the response data. -/
structure IntentBackend where
  createPaymentIntent : IntentRequest → Except String IntentData

/-- What the payment-sheet handlers do, in order. -/
inductive PaymentEffect where
  | setLoading (value : Bool)
  | postIntent (url : String) (request : IntentRequest)
  | initSheet (params : SheetParams)
  | presentSheet
  | toast (t : Toast)
  | ticketGeneration (effects : List Effect)
  deriving DecidableEq, Repr

/-- The request object `{ amount, busId, userId, adminId }`. -/
def intentRequest (amount : JsNumber) (adminId : Option String) (props : PaymentProps) :
    IntentRequest :=
  { amount := amount, busId := props.busId, userId := props.userId, adminId := adminId }

/-- The argument that `initializePaymentSheet` builds for `initPaymentSheet`. -/
def sheetParams (data : IntentData) : SheetParams :=
  { paymentIntentClientSecret := data.clientSecret, customerId := data.customer,
    customerEphemeralKeySecret := data.ephemeralKey, merchantDisplayName := "Tap & Travel" }

/-- `initializePaymentSheet()`: `setLoading(true)`, the `try` block with its
`catch`, and the `setLoading(false)` that follows them. -/
def initializePaymentSheet (intents : IntentBackend) (provider : Provider) (amount : JsNumber)
    (adminId : Option String) (props : PaymentProps) : List PaymentEffect :=
  let request := intentRequest amount adminId props
  [PaymentEffect.setLoading true,
   PaymentEffect.postIntent "/payment/create-payment-intent" request] ++
  (match intents.createPaymentIntent request with
   | Except.error _ =>
     [PaymentEffect.toast
       { type := "error", text1 := some "Unable to initialize payment.", text2 := none }]
   | Except.ok data =>
     PaymentEffect.initSheet (sheetParams data) ::
       (match provider.initPaymentSheet (sheetParams data) with
        | none => [PaymentEffect.setLoading false]
        | some _ => [])) ++
  [PaymentEffect.setLoading false]

/-- The `loading` state once the given effects have run. -/
def loadingAfter : Bool → List PaymentEffect → Bool
  | loading, [] => loading
  | _, PaymentEffect.setLoading value :: rest => loadingAfter value rest
  | loading, _ :: rest => loadingAfter loading rest

/-- `openPaymentSheet()`, the press handler of "Pay Now", against the `loading`
state of the last render. -/
def openPaymentSheet (apiBaseUrl : String) (backend : Backend) (provider : Provider)
    (loading : Bool) (props : PaymentProps) : List PaymentEffect :=
  if loading then []
  else
    PaymentEffect.presentSheet ::
      (match provider.presentPaymentSheet with
       | some error =>
         [PaymentEffect.toast
           { type := "error", text1 := some "Payment Failed!", text2 := error.message }]
       | none =>
         [PaymentEffect.ticketGeneration (handleTicketGeneration apiBaseUrl backend props)])

/-- The initialization reached the Ready state: the backend returned a payment
intent and `initPaymentSheet` reported no error. -/
def initializationReady (intents : IntentBackend) (provider : Provider) (amount : JsNumber)
    (adminId : Option String) (props : PaymentProps) : Bool :=
  match intents.createPaymentIntent (intentRequest amount adminId props) with
  | Except.error _ => false
  | Except.ok data => (provider.initPaymentSheet (sheetParams data)).isNone

/-- A press of "Pay Now" once the initialization started at mount (`loading`
is `false` at the first render) has finished. -/
def payNowAfterInitialization (apiBaseUrl : String) (intents : IntentBackend)
    (backend : Backend) (provider : Provider) (amount : JsNumber) (adminId : Option String)
    (props : PaymentProps) : List PaymentEffect :=
  openPaymentSheet apiBaseUrl backend provider
    (loadingAfter false (initializePaymentSheet intents provider amount adminId props)) props

/-! ## Sample data -/

/-- A decoder that accepts every token. -/
def sampleDecode (_ : String) : Option Decoded :=
  some { sub := some "u1", name := some "Rider", email := some "r@x.pk" }

/-- A row whose first seat is booked by a woman (Scenario B). -/
def busB : Bus :=
  { seats := [{ seatNumber := "R1-1", booked := true, gender := some "F", neighborGender := none },
              { seatNumber := "R1-2", booked := false, gender := none, neighborGender := some "F" }],
    fare := { actualPrice := JsNumber.whole 1200 }, busDetails := some { adminId := some "a1" } }

/-- The free seat of `busB`, selected and assigned to a woman. -/
def selB : List Seat :=
  [{ seatNumber := "R1-2", booked := false, gender := some "F", neighborGender := some "F" }]

/-- Both seats of `busFree`, selected and assigned to men. -/
def selFree : List Seat :=
  [{ seatNumber := "R1-1", booked := false, gender := some "M", neighborGender := none },
   { seatNumber := "R1-2", booked := false, gender := some "M", neighborGender := none }]

/-- The screen of `busB` after selecting `R1-2` and opening its gender modal. -/
def screenB : Screen :=
  { selectedSeats :=
      [{ seatNumber := "R1-2", booked := false, gender := none, neighborGender := some "F" }],
    currentSeatForGender :=
      some { seatNumber := "R1-2", booked := false, gender := none, neighborGender := some "F" },
    genderModalVisible := true }

/-- Props of the payment screen for the selection `selFree`. -/
def propsFree : PaymentProps :=
  { userId := some "u1", email := some "r@x.pk", busId := "b1", selectedSeats := some selFree }

/-- A backend whose seat commit throws. -/
def commitFails : Backend :=
  { updateSeatStatus := fun _ => Except.error "Network Error",
    generateTicket := fun _ => Except.ok () }

/-- A backend whose seat commit answers and whose ticket generation throws. -/
def ticketFails : Backend :=
  { updateSeatStatus := fun _ => Except.ok (),
    generateTicket := fun _ => Except.error "Network Error" }

/-- A backend whose two calls answer. -/
def bothSucceed : Backend :=
  { updateSeatStatus := fun _ => Except.ok (),
    generateTicket := fun _ => Except.ok () }

/-- A payment-intent endpoint that answers. -/
def intentsOk : IntentBackend :=
  { createPaymentIntent := fun _ =>
      Except.ok { clientSecret := some "pi_secret", ephemeralKey := some "ek", customer := some "cus" } }

/-- A payment-intent endpoint that throws. -/
def intentsFail : IntentBackend :=
  { createPaymentIntent := fun _ => Except.error "Request failed with status code 500" }

/-- A provider whose `initPaymentSheet` reports an error and whose
`presentPaymentSheet` then reports one too. -/
def providerInitError : Provider :=
  { initPaymentSheet := fun _ => some { message := some "Invalid client secret" },
    presentPaymentSheet := some { message := some "Payment sheet not initialized" } }

/-- A provider whose `initPaymentSheet` reports an error and whose
`presentPaymentSheet` reports none. -/
def providerInitErrorOnly : Provider :=
  { initPaymentSheet := fun _ => some { message := some "Invalid client secret" },
    presentPaymentSheet := none }

/-- A provider that reports no error. -/
def providerOk : Provider :=
  { initPaymentSheet := fun _ => none, presentPaymentSheet := none }

/-- A row of three free seats whose fare is the whole number 3002399751580331. -/
def busLargeFare : Bus :=
  { seats := [{ seatNumber := "R1-1", booked := false, gender := none, neighborGender := none },
              { seatNumber := "R1-2", booked := false, gender := none, neighborGender := none },
              { seatNumber := "R1-3", booked := false, gender := none, neighborGender := none }],
    fare := { actualPrice := JsNumber.whole 3002399751580331 },
    busDetails := some { adminId := some "a1" } }

/-- The three seats of `busLargeFare`, selected and assigned to men. -/
def selThree : List Seat :=
  [{ seatNumber := "R1-1", booked := false, gender := some "M", neighborGender := none },
   { seatNumber := "R1-2", booked := false, gender := some "M", neighborGender := none },
   { seatNumber := "R1-3", booked := false, gender := some "M", neighborGender := none }]

/-- The double written `0.1`: `3602879701896397 * 2 ^ (-55)`. -/
def oneTenth : JsNumber :=
  JsNumber.finite false 3602879701896397 (-55)

/-- The screen of `busFree` after selecting both seats and opening the gender
modal of `R1-2`. -/
def screenTwo : Screen :=
  { selectedSeats :=
      [{ seatNumber := "R1-1", booked := false, gender := some "M", neighborGender := none },
       { seatNumber := "R1-2", booked := false, gender := none, neighborGender := none }],
    currentSeatForGender :=
      some { seatNumber := "R1-2", booked := false, gender := none, neighborGender := none },
    genderModalVisible := true }

/-- A row of two free seats. -/
def busFree : Bus :=
  { seats := [{ seatNumber := "R1-1", booked := false, gender := none, neighborGender := none },
              { seatNumber := "R1-2", booked := false, gender := none, neighborGender := none }],
    fare := { actualPrice := JsNumber.whole 1200 }, busDetails := some { adminId := some "a1" } }

end TapAndTravel

/-! ## Theorems -/

namespace TapAndTravel

/-! ### Seat selection -/

/-- C1: toggling a booked seat leaves every selection list as it was, so a
booked seat is never added to the selection. -/
theorem toggleSeatSelection_booked_noop (selectedSeats : List Seat) (seat : Seat)
    (hbooked : seat.booked = true) :
    toggleSeatSelection selectedSeats seat = selectedSeats := by
  simp [toggleSeatSelection, hbooked]

/-- Witness of C1: the booked seat `R1-1` of `busB` toggled on a selection
holding `R1-2`. -/
theorem toggleSeatSelection_booked_noop_witness :
    toggleSeatSelection
        [{ seatNumber := "R1-2", booked := false, gender := none, neighborGender := some "F" }]
        { seatNumber := "R1-1", booked := true, gender := some "F", neighborGender := none } =
      [{ seatNumber := "R1-2", booked := false, gender := none, neighborGender := some "F" }] :=
  toggleSeatSelection_booked_noop _ _ rfl

/-! ### Hand-off to payment -/

theorem allSeatsHaveGender_iff (selectedSeats : List Seat) :
    allSeatsHaveGender selectedSeats = true ↔
      ∀ seat ∈ selectedSeats, truthy seat.gender = true := by
  simp [allSeatsHaveGender, List.all_eq_true]

theorem handleGenderAssignment_valid (jwtDecode : String → Option Decoded) (tok : String)
    (decoded : Decoded) (busId : String) (bus : Bus) (selectedSeats : List Seat)
    (htok : tok ≠ "") (hdec : jwtDecode tok = some decoded) :
    handleGenderAssignment jwtDecode (some tok) busId bus selectedSeats =
      if allSeatsHaveGender selectedSeats then
        AssignmentOutcome.navigated "PaymentScreen"
          { busId := busId, userId := decoded.sub, userName := decoded.name,
            email := decoded.email,
            amount := lengthTimes selectedSeats.length bus.fare.actualPrice,
            adminId := bus.busDetails.bind (fun d => d.adminId),
            selectedSeats := selectedSeats }
      else
        AssignmentOutcome.toastShown
          { type := "error", text1 := some "Please assign gender for all selected seats",
            text2 := none } := by
  simp only [handleGenderAssignment, truthy, Option.getD_some, hdec]
  have h1 : (tok != "") = true := by simpa using htok
  simp only [h1, Bool.not_true, Bool.false_eq_true, if_false]
  cases allSeatsHaveGender selectedSeats <;> simp

/-- Counterexample to C2 as stated: with a valid token the check of
`handleGenderAssignment` passes on the empty selection and navigates to the
payment screen with amount 0, although the selection is not non-empty. -/
theorem handleGenderAssignment_passes_on_empty_selection :
    handleGenderAssignment sampleDecode (some "t") "b1" busB [] =
        AssignmentOutcome.navigated "PaymentScreen"
          { busId := "b1", userId := some "u1", userName := some "Rider",
            email := some "r@x.pk", amount := JsNumber.whole 0, adminId := some "a1",
            selectedSeats := [] } ∧
      ¬ (([] : List Seat) ≠ [] ∧ ∀ seat ∈ ([] : List Seat), truthy seat.gender = true) := by
  constructor
  · decide
  · simp

/-- C2 (amended): with a valid token, the check inside `handleGenderAssignment`
passes exactly when every selected seat has a set gender (so also on the empty
list); the "Confirm Your Bookings" button that calls it is rendered exactly
when the selection is non-empty, so the hand-off that the screen offers happens
if and only if the selection is non-empty and every selected seat has a set
gender. -/
theorem confirm_handoff_iff (jwtDecode : String → Option Decoded) (tok : String)
    (decoded : Decoded) (busId : String) (bus : Bus) (selectedSeats : List Seat)
    (htok : tok ≠ "") (hdec : jwtDecode tok = some decoded) :
    ((∃ p, handleGenderAssignment jwtDecode (some tok) busId bus selectedSeats =
          AssignmentOutcome.navigated "PaymentScreen" p) ↔
        ∀ seat ∈ selectedSeats, truthy seat.gender = true) ∧
    ((confirmButtonRendered selectedSeats = true ∧
        ∃ p, handleGenderAssignment jwtDecode (some tok) busId bus selectedSeats =
          AssignmentOutcome.navigated "PaymentScreen" p) ↔
        (selectedSeats ≠ [] ∧ ∀ seat ∈ selectedSeats, truthy seat.gender = true)) := by
  have key : (∃ p, handleGenderAssignment jwtDecode (some tok) busId bus selectedSeats =
          AssignmentOutcome.navigated "PaymentScreen" p) ↔
        ∀ seat ∈ selectedSeats, truthy seat.gender = true := by
    rw [handleGenderAssignment_valid jwtDecode tok decoded busId bus selectedSeats htok hdec,
      ← allSeatsHaveGender_iff]
    cases allSeatsHaveGender selectedSeats <;> simp
  refine ⟨key, ?_⟩
  rw [key]
  have hne : confirmButtonRendered selectedSeats = true ↔ selectedSeats ≠ [] := by
    simp [confirmButtonRendered, List.length_pos]
  rw [hne]

/-- Witness of C2 (amended): one selected seat with gender `F`. -/
theorem confirm_handoff_iff_witness :
    ((∃ p, handleGenderAssignment sampleDecode (some "t") "b1" busB selB =
          AssignmentOutcome.navigated "PaymentScreen" p) ↔
        ∀ seat ∈ selB, truthy seat.gender = true) ∧
    ((confirmButtonRendered selB = true ∧
        ∃ p, handleGenderAssignment sampleDecode (some "t") "b1" busB selB =
          AssignmentOutcome.navigated "PaymentScreen" p) ↔
        (selB ≠ [] ∧ ∀ seat ∈ selB, truthy seat.gender = true)) :=
  confirm_handoff_iff sampleDecode "t" _ "b1" busB selB (by decide) rfl

theorem bitLengthAux_le (fuel n k : Nat) (h : n < 2 ^ k) : bitLengthAux fuel n ≤ k := by
  induction fuel generalizing n k with
  | zero => simp [bitLengthAux]
  | succ fuel ih =>
    unfold bitLengthAux
    by_cases hn : n = 0
    · simp [hn]
    · simp only [hn, if_false]
      cases k with
      | zero =>
        simp only [pow_zero, Nat.lt_one_iff] at h
        exact absurd h hn
      | succ k =>
        have hhalf : n / 2 < 2 ^ k := by
          rw [Nat.div_lt_iff_lt_mul (by decide)]
          rw [Nat.pow_succ] at h
          exact h
        exact Nat.succ_le_succ (ih (n / 2) k hhalf)

theorem roundToDouble_of_fits (negative : Bool) (mantissa : Nat) (exponent : Int)
    (hfit : mantissa < 2 ^ 53) (hexp : exponent ≤ 971) :
    roundToDouble negative mantissa exponent = JsNumber.finite negative mantissa exponent := by
  have hlen : bitLength mantissa ≤ 53 := bitLengthAux_le mantissa mantissa 53 hfit
  have hshift : bitLength mantissa - 53 = 0 := by omega
  have hne : mantissa ≠ 2 ^ 53 := Nat.ne_of_lt hfit
  have hover : ¬ (mantissa ≠ 0 ∧ (bitLength mantissa : Int) + exponent + ((0 : Nat) : Int) > 1024) := by
    intro h
    have := h.2
    omega
  unfold roundToDouble
  simp only [hshift, pow_zero, Nat.div_one, Nat.mod_one, Nat.mul_zero, gt_iff_lt,
    Nat.lt_irrefl, Nat.not_lt_zero, zero_ne_one, false_and, or_self, if_false]
  rw [if_neg hover, if_neg hne]
  simp

theorem lengthTimes_value_of_fits (length : Nat) (negative : Bool) (mantissa : Nat)
    (exponent : Int) (hfit : length * mantissa < 2 ^ 53) (hexp : exponent ≤ 971) :
    (lengthTimes length (JsNumber.finite negative mantissa exponent)).value =
      (JsNumber.finite negative mantissa exponent).value.map (fun v => (length : ℚ) * v) := by
  simp only [lengthTimes, roundToDouble_of_fits negative (length * mantissa) exponent hfit hexp,
    JsNumber.value, Option.map_some', Option.some.injEq]
  push_cast
  ring

theorem lengthTimes_oneTenth :
    lengthTimes 3 oneTenth = JsNumber.finite false 5404319552844596 (-54) ∧
    (JsNumber.finite false 5404319552844596 (-54)).value ≠
      oneTenth.value.map (fun v => (3 : ℚ) * v) := by
  refine ⟨by decide, ?_⟩
  simp only [oneTenth, JsNumber.value, Bool.false_eq_true, if_false, Option.map_some', ne_eq,
    Option.some.injEq]
  norm_num

/-- Counterexample to C8 as stated: three selected seats on a bus whose fare is
the whole number 3002399751580331.  The amount handed to the payment screen is
the double `4503599627370496 * 2`, that is 9007199254740992, while three times
the fare is 9007199254740993. -/
theorem handleGenderAssignment_amount_rounded :
    handleGenderAssignment sampleDecode (some "t") "b1" busLargeFare selThree =
      AssignmentOutcome.navigated "PaymentScreen"
        { busId := "b1", userId := some "u1", userName := some "Rider",
          email := some "r@x.pk", amount := JsNumber.finite false 4503599627370496 1,
          adminId := some "a1", selectedSeats := selThree } ∧
    (JsNumber.finite false 4503599627370496 1).value = some 9007199254740992 ∧
    busLargeFare.fare.actualPrice.value.map (fun v => (selThree.length : ℚ) * v) =
      some 9007199254740993 ∧
    (JsNumber.finite false 4503599627370496 1).value ≠
      busLargeFare.fare.actualPrice.value.map (fun v => (selThree.length : ℚ) * v) := by
  refine ⟨by decide, ?_, ?_, ?_⟩
  · simp only [JsNumber.value, Bool.false_eq_true, if_false, Option.some.injEq]
    norm_num
  · simp only [busLargeFare, JsNumber.whole, JsNumber.value, selThree, List.length_cons,
      List.length_nil, Bool.false_eq_true, if_false, Option.map_some', Option.some.injEq]
    norm_num
  · simp only [busLargeFare, JsNumber.whole, JsNumber.value, selThree, List.length_cons,
      List.length_nil, Bool.false_eq_true, if_false, Option.map_some', ne_eq, Option.some.injEq]
    norm_num

/-- C8 (amended): whenever `handleGenderAssignment` hands off to payment (valid
token, every selected seat with a gender), the amount passed is the JavaScript
product `selectedSeats.length * fare.actualPrice`, over the very selection that
is passed on.  For a finite fare `mantissa * 2 ^ exponent` that is a double,
when the number of seats times the mantissa stays below `2 ^ 53` (for a whole
fare: seats times fare below `2 ^ 53`), the value of the amount is exactly the
number of selected seats times the fare; on the empty selection it is 0. -/
theorem handleGenderAssignment_amount_exact (jwtDecode : String → Option Decoded)
    (tok : String) (decoded : Decoded) (busId : String) (bus : Bus) (selectedSeats : List Seat)
    (negative : Bool) (mantissa : Nat) (exponent : Int)
    (htok : tok ≠ "") (hdec : jwtDecode tok = some decoded)
    (hall : allSeatsHaveGender selectedSeats = true)
    (hprice : bus.fare.actualPrice = JsNumber.finite negative mantissa exponent)
    (hdouble : bus.fare.actualPrice.isDouble = true)
    (hfit : selectedSeats.length * mantissa < 2 ^ 53) :
    (∃ p, handleGenderAssignment jwtDecode (some tok) busId bus selectedSeats =
          AssignmentOutcome.navigated "PaymentScreen" p ∧
        p.selectedSeats = selectedSeats ∧
        p.amount = lengthTimes selectedSeats.length bus.fare.actualPrice ∧
        p.amount.value =
          bus.fare.actualPrice.value.map (fun v => (selectedSeats.length : ℚ) * v)) ∧
    (∃ p, handleGenderAssignment jwtDecode (some tok) busId bus [] =
          AssignmentOutcome.navigated "PaymentScreen" p ∧ p.amount.value = some 0) := by
  have hexp : exponent ≤ 971 := by
    rw [hprice] at hdouble
    simp only [JsNumber.isDouble, Bool.and_eq_true, decide_eq_true_eq] at hdouble
    exact hdouble.2
  constructor
  · rw [handleGenderAssignment_valid jwtDecode tok decoded busId bus selectedSeats htok hdec, hall]
    refine ⟨_, rfl, rfl, rfl, ?_⟩
    simp only [if_true, hprice]
    exact lengthTimes_value_of_fits selectedSeats.length negative mantissa exponent hfit hexp
  · rw [handleGenderAssignment_valid jwtDecode tok decoded busId bus [] htok hdec]
    refine ⟨_, rfl, ?_⟩
    have hzero : ([] : List Seat).length * mantissa < 2 ^ 53 := by simp
    have hval := lengthTimes_value_of_fits ([] : List Seat).length negative mantissa exponent
      hzero hexp
    simp only [allSeatsHaveGender, List.all_nil, if_true, hprice]
    rw [hval]
    simp [JsNumber.value]

/-- Witness of C8 (amended): two seats with genders on a bus whose fare is 1200. -/
theorem handleGenderAssignment_amount_exact_witness :
    (∃ p, handleGenderAssignment sampleDecode (some "t") "b1" busFree selFree =
          AssignmentOutcome.navigated "PaymentScreen" p ∧
        p.selectedSeats = selFree ∧
        p.amount = lengthTimes selFree.length busFree.fare.actualPrice ∧
        p.amount.value =
          busFree.fare.actualPrice.value.map (fun v => (selFree.length : ℚ) * v)) ∧
    (∃ p, handleGenderAssignment sampleDecode (some "t") "b1" busFree [] =
          AssignmentOutcome.navigated "PaymentScreen" p ∧ p.amount.value = some 0) :=
  handleGenderAssignment_amount_exact sampleDecode "t" _ "b1" busFree selFree false 1200 0
    (by decide) rfl (by decide) rfl (by decide) (by decide)

/-! ### Gender assignment -/

theorem handleGenderSelection_of_conflict (st : Screen) (cur : Seat) (gender : String)
    (hcur : st.currentSeatForGender = some cur)
    (hconf : (truthy cur.neighborGender && (cur.neighborGender != some gender)) = true) :
    handleGenderSelection st gender =
      (st, SelectionOutcome.rejected
        { type := "error",
          text1 := some ("Seat " ++ splitDashSecond cur.seatNumber ++ ": Must select " ++
            (if cur.neighborGender == some "M" then "Male" else "Female")),
          text2 := none }) := by
  simp only [handleGenderSelection, hcur, hconf, if_true]

theorem handleGenderSelection_of_no_conflict (st : Screen) (cur : Seat) (gender : String)
    (hcur : st.currentSeatForGender = some cur)
    (hconf : (truthy cur.neighborGender && (cur.neighborGender != some gender)) = false) :
    handleGenderSelection st gender =
      ({ selectedSeats := st.selectedSeats.map (fun seat =>
            if seat.seatNumber == cur.seatNumber then { seat with gender := some gender }
            else seat),
         currentSeatForGender := none,
         genderModalVisible := false },
       SelectionOutcome.accepted) := by
  simp only [handleGenderSelection, hcur, hconf, Bool.false_eq_true, if_false]

theorem conflict_iff (neighborGender : Option String) (gender : String) :
    (truthy neighborGender && (neighborGender != some gender)) = true ↔
      (truthy neighborGender = true ∧ neighborGender ≠ some gender) := by
  simp

/-- C3: for a seat under assignment and a proposed gender (`M` or `F` are the
two the modal offers), `handleGenderSelection` rejects exactly when the seat's
neighbour gender is set and differs from the proposed gender, and accepts
otherwise; the text of a rejection asks for `Male` when the neighbour is `M`
and for `Female` when the neighbour is `F`. -/
theorem handleGenderSelection_rejects_iff (st : Screen) (cur : Seat) (gender : String)
    (hcur : st.currentSeatForGender = some cur) :
    ((∃ t, (handleGenderSelection st gender).2 = SelectionOutcome.rejected t) ↔
        (truthy cur.neighborGender = true ∧ cur.neighborGender ≠ some gender)) ∧
    ((handleGenderSelection st gender).2 = SelectionOutcome.accepted ↔
        ¬ (truthy cur.neighborGender = true ∧ cur.neighborGender ≠ some gender)) ∧
    (∀ t, (handleGenderSelection st gender).2 = SelectionOutcome.rejected t →
        (cur.neighborGender = some "M" →
          t.text1 = some ("Seat " ++ splitDashSecond cur.seatNumber ++ ": Must select Male")) ∧
        (cur.neighborGender = some "F" →
          t.text1 = some ("Seat " ++ splitDashSecond cur.seatNumber ++ ": Must select Female"))) := by
  rw [← conflict_iff]
  cases hconf : (truthy cur.neighborGender && (cur.neighborGender != some gender))
  · rw [handleGenderSelection_of_no_conflict st cur gender hcur hconf]
    simp
  · rw [handleGenderSelection_of_conflict st cur gender hcur hconf]
    refine ⟨by simp, by simp, ?_⟩
    intro t ht
    simp only [SelectionOutcome.rejected.injEq] at ht
    subst ht
    constructor
    · intro hM
      have hlit : ": Must select " ++ "Male" = ": Must select Male" := by decide
      simp only [hM, beq_self_eq_true, if_true, String.append_assoc, hlit]
    · intro hF
      have hlit : ": Must select " ++ "Female" = ": Must select Female" := by decide
      have hne : ((some "F" : Option String) == some "M") = false := by decide
      simp only [hF, hne, Bool.false_eq_true, if_false, String.append_assoc, hlit]

/-- Witness of C3 (Scenario B): `R1-2` beside a booked woman, `M` proposed. -/
theorem handleGenderSelection_rejects_iff_witness :
    ((∃ t, (handleGenderSelection screenB "M").2 = SelectionOutcome.rejected t) ↔
        (truthy (some "F") = true ∧ (some "F" : Option String) ≠ some "M")) ∧
    ((handleGenderSelection screenB "M").2 = SelectionOutcome.accepted ↔
        ¬ (truthy (some "F") = true ∧ (some "F" : Option String) ≠ some "M")) ∧
    (∀ t, (handleGenderSelection screenB "M").2 = SelectionOutcome.rejected t →
        ((some "F" : Option String) = some "M" →
          t.text1 = some ("Seat " ++ splitDashSecond "R1-2" ++ ": Must select Male")) ∧
        ((some "F" : Option String) = some "F" →
          t.text1 = some ("Seat " ++ splitDashSecond "R1-2" ++ ": Must select Female"))) :=
  handleGenderSelection_rejects_iff screenB
    { seatNumber := "R1-2", booked := false, gender := none, neighborGender := some "F" } "M" rfl

/-- C5: when the neighbour gender of the seat under assignment is set and
differs from the proposed gender, `handleGenderSelection` rejects and returns
the screen state it was given: the selection list, the seat under assignment
and the modal are all as before. -/
theorem handleGenderSelection_reject_unchanged (st : Screen) (cur : Seat) (gender : String)
    (hcur : st.currentSeatForGender = some cur)
    (hset : truthy cur.neighborGender = true) (hdiff : cur.neighborGender ≠ some gender) :
    (∃ t, (handleGenderSelection st gender).2 = SelectionOutcome.rejected t) ∧
    (handleGenderSelection st gender).1 = st ∧
    (handleGenderSelection st gender).1.selectedSeats = st.selectedSeats := by
  have hconf := (conflict_iff cur.neighborGender gender).2 ⟨hset, hdiff⟩
  rw [handleGenderSelection_of_conflict st cur gender hcur hconf]
  exact ⟨⟨_, rfl⟩, rfl, rfl⟩

/-- Witness of C5 (Scenario B): `M` proposed for `R1-2` beside a booked woman. -/
theorem handleGenderSelection_reject_unchanged_witness :
    (∃ t, (handleGenderSelection screenB "M").2 = SelectionOutcome.rejected t) ∧
    (handleGenderSelection screenB "M").1 = screenB ∧
    (handleGenderSelection screenB "M").1.selectedSeats = screenB.selectedSeats :=
  handleGenderSelection_reject_unchanged screenB
    { seatNumber := "R1-2", booked := false, gender := none, neighborGender := some "F" } "M"
    rfl (by decide) (by decide)

/-- C6: when `handleGenderSelection` accepts a gender for the current seat, the
new selection list has the same length and the same seat numbers in the same
order; position by position, an entry with the current seat's number is the old
entry with its gender set to the proposed one and any other entry is the old
entry; with unique seat numbers at most one position carries the current seat's
number, so only that entry is updated. -/
theorem handleGenderSelection_accept_frame (st : Screen) (cur : Seat) (gender : String)
    (hcur : st.currentSeatForGender = some cur)
    (hacc : (handleGenderSelection st gender).2 = SelectionOutcome.accepted)
    (huniq : (st.selectedSeats.map (fun s => s.seatNumber)).Nodup) :
    (handleGenderSelection st gender).1.selectedSeats.length = st.selectedSeats.length ∧
    (handleGenderSelection st gender).1.selectedSeats.map (fun s => s.seatNumber) =
      st.selectedSeats.map (fun s => s.seatNumber) ∧
    (∀ (i : Nat) (s : Seat), st.selectedSeats[i]? = some s →
      (s.seatNumber = cur.seatNumber →
        (handleGenderSelection st gender).1.selectedSeats[i]? =
          some { s with gender := some gender }) ∧
      (s.seatNumber ≠ cur.seatNumber →
        (handleGenderSelection st gender).1.selectedSeats[i]? = some s)) ∧
    (∀ (i j : Nat) (s t : Seat), st.selectedSeats[i]? = some s → st.selectedSeats[j]? = some t →
      s.seatNumber = cur.seatNumber → t.seatNumber = cur.seatNumber → i = j) := by
  cases hconf : (truthy cur.neighborGender && (cur.neighborGender != some gender))
  · rw [handleGenderSelection_of_no_conflict st cur gender hcur hconf]
    refine ⟨by simp, ?_, ?_, ?_⟩
    · simp only [List.map_map]
      apply List.map_congr_left
      intro s _
      by_cases h : s.seatNumber = cur.seatNumber <;> simp [h]
    · intro i s hs
      simp only [List.getElem?_map, hs, Option.map_some']
      constructor
      · intro h
        simp [h]
      · intro h
        simp [h]
    · intro i j s t hs ht hsc htc
      have hi := List.getElem?_eq_some.1 hs
      have hj := List.getElem?_eq_some.1 ht
      obtain ⟨hi1, hi2⟩ := hi
      obtain ⟨hj1, hj2⟩ := hj
      have hi3 : i < (st.selectedSeats.map (fun s => s.seatNumber)).length := by simpa using hi1
      have hj3 : j < (st.selectedSeats.map (fun s => s.seatNumber)).length := by simpa using hj1
      have heq : (st.selectedSeats.map (fun s => s.seatNumber))[i] =
          (st.selectedSeats.map (fun s => s.seatNumber))[j] := by
        simp [hi2, hj2, hsc, htc]
      exact (List.Nodup.getElem_inj_iff huniq).1 heq
  · rw [handleGenderSelection_of_conflict st cur gender hcur hconf] at hacc
    simp at hacc

/-- Witness of C6: `F` proposed for `R1-2` on a selection that also holds
`R1-1`, already given `M`. -/
theorem handleGenderSelection_accept_frame_witness :
    (handleGenderSelection screenTwo "F").1.selectedSeats.length =
      screenTwo.selectedSeats.length ∧
    (handleGenderSelection screenTwo "F").1.selectedSeats.map (fun s => s.seatNumber) =
      screenTwo.selectedSeats.map (fun s => s.seatNumber) ∧
    (∀ (i : Nat) (s : Seat), screenTwo.selectedSeats[i]? = some s →
      (s.seatNumber = "R1-2" →
        (handleGenderSelection screenTwo "F").1.selectedSeats[i]? =
          some { s with gender := some "F" }) ∧
      (s.seatNumber ≠ "R1-2" →
        (handleGenderSelection screenTwo "F").1.selectedSeats[i]? = some s)) ∧
    (∀ (i j : Nat) (s t : Seat), screenTwo.selectedSeats[i]? = some s →
      screenTwo.selectedSeats[j]? = some t →
      s.seatNumber = "R1-2" → t.seatNumber = "R1-2" → i = j) :=
  handleGenderSelection_accept_frame screenTwo
    { seatNumber := "R1-2", booked := false, gender := none, neighborGender := none } "F"
    rfl (by decide) (by decide)

/-! ### Reachable screens -/

theorem handleGenderSelection_no_current (st : Screen) (gender : String)
    (hcur : st.currentSeatForGender = none) :
    handleGenderSelection st gender = (st, SelectionOutcome.ignored) := by
  simp only [handleGenderSelection, hcur]

theorem handleGenderSelection_seatNumbers (st : Screen) (gender : String) :
    (handleGenderSelection st gender).1.selectedSeats.map (fun s => s.seatNumber) =
      st.selectedSeats.map (fun s => s.seatNumber) := by
  cases hcur : st.currentSeatForGender with
  | none => rw [handleGenderSelection_no_current st gender hcur]
  | some cur =>
    cases hconf : (truthy cur.neighborGender && (cur.neighborGender != some gender))
    · rw [handleGenderSelection_of_no_conflict st cur gender hcur hconf]
      simp only [List.map_map]
      apply List.map_congr_left
      intro s _
      by_cases h : s.seatNumber = cur.seatNumber <;> simp [h]
    · rw [handleGenderSelection_of_conflict st cur gender hcur hconf]

theorem mem_toggleSeatSelection (selectedSeats : List Seat) (seat s : Seat)
    (hs : s ∈ toggleSeatSelection selectedSeats seat) :
    s ∈ selectedSeats ∨ s = { seat with gender := none } := by
  unfold toggleSeatSelection at hs
  by_cases hb : seat.booked = true
  · simp only [hb, if_true] at hs
    exact Or.inl hs
  · simp only [hb, Bool.false_eq_true, if_false] at hs
    by_cases hf : (selectedSeats.find? (fun s => s.seatNumber == seat.seatNumber)).isSome = true
    · simp only [hf, if_true] at hs
      exact Or.inl (List.mem_filter.1 hs).1
    · simp only [hf, Bool.false_eq_true, if_false] at hs
      rcases List.mem_append.1 hs with h | h
      · exact Or.inl h
      · have hb2 : seat.booked = false := by simpa using hb
        right
        rw [List.mem_singleton.1 h, hb2]

theorem toggleSeatSelection_nodup (selectedSeats : List Seat) (seat : Seat)
    (hnd : (selectedSeats.map (fun s => s.seatNumber)).Nodup) :
    ((toggleSeatSelection selectedSeats seat).map (fun s => s.seatNumber)).Nodup := by
  unfold toggleSeatSelection
  by_cases hb : seat.booked = true
  · simpa only [hb, if_true] using hnd
  · simp only [hb, Bool.false_eq_true, if_false]
    by_cases hf : (selectedSeats.find? (fun s => s.seatNumber == seat.seatNumber)).isSome = true
    · simp only [hf, if_true]
      exact List.Nodup.sublist (List.Sublist.map _ (List.filter_sublist _)) hnd
    · simp only [hf, Bool.false_eq_true, if_false]
      have hnone : selectedSeats.find? (fun s => s.seatNumber == seat.seatNumber) = none := by
        cases h : selectedSeats.find? (fun s => s.seatNumber == seat.seatNumber) with
        | none => rfl
        | some x => simp [h] at hf
      have hall := List.find?_eq_none.1 hnone
      rw [List.map_append, List.nodup_append]
      refine ⟨hnd, by simp, ?_⟩
      intro x hx hx2
      simp only [List.map_cons, List.map_nil, List.mem_singleton] at hx2
      obtain ⟨s, hs, hsx⟩ := List.mem_map.1 hx
      apply hall s hs
      simp only [beq_iff_eq]
      rw [hsx, hx2]

theorem step_nodup (bus : Bus) (st : Screen) (e : Event)
    (hnd : (st.selectedSeats.map (fun s => s.seatNumber)).Nodup) :
    ((step bus st e).selectedSeats.map (fun s => s.seatNumber)).Nodup := by
  cases e with
  | tapSeat i =>
    simp only [step]
    cases bus.seats.get? i with
    | none => exact hnd
    | some seat => exact toggleSeatSelection_nodup st.selectedSeats seat hnd
  | tapChip i =>
    simp only [step]
    cases st.selectedSeats.get? i with
    | none => exact hnd
    | some seat => exact hnd
  | pressMale =>
    simp only [step]
    rw [handleGenderSelection_seatNumbers]
    exact hnd
  | pressFemale =>
    simp only [step]
    rw [handleGenderSelection_seatNumbers]
    exact hnd
  | cancelModal => exact hnd

theorem run_nodup (bus : Bus) (evs : List Event) (st : Screen)
    (hnd : (st.selectedSeats.map (fun s => s.seatNumber)).Nodup) :
    ((run bus st evs).selectedSeats.map (fun s => s.seatNumber)).Nodup := by
  induction evs generalizing st with
  | nil => exact hnd
  | cons e es ih => exact ih (step bus st e) (step_nodup bus st e hnd)

/-- C7: starting from the empty selection, after any sequence of presses (seat
toggles, chip presses, gender choices, cancels) on any seat map, no two entries
of `selectedSeats` have the same `seatNumber`. -/
theorem selectedSeats_seatNumbers_nodup (bus : Bus) (evs : List Event) :
    ((run bus initialScreen evs).selectedSeats.map (fun s => s.seatNumber)).Nodup ∧
    (∀ (i j : Nat) (s t : Seat),
      (run bus initialScreen evs).selectedSeats[i]? = some s →
      (run bus initialScreen evs).selectedSeats[j]? = some t →
      s.seatNumber = t.seatNumber → i = j) := by
  have hnd := run_nodup bus evs initialScreen (by simp [initialScreen])
  refine ⟨hnd, ?_⟩
  intro i j s t hs ht hst
  obtain ⟨hi1, hi2⟩ := List.getElem?_eq_some.1 hs
  obtain ⟨hj1, hj2⟩ := List.getElem?_eq_some.1 ht
  have hi3 : i < ((run bus initialScreen evs).selectedSeats.map (fun s => s.seatNumber)).length := by
    simpa using hi1
  have hj3 : j < ((run bus initialScreen evs).selectedSeats.map (fun s => s.seatNumber)).length := by
    simpa using hj1
  have heq : ((run bus initialScreen evs).selectedSeats.map (fun s => s.seatNumber))[i] =
      ((run bus initialScreen evs).selectedSeats.map (fun s => s.seatNumber))[j] := by
    simp [hi2, hj2, hst]
  exact (List.Nodup.getElem_inj_iff hnd).1 heq

/-! ### The gender rule along a session -/

theorem adjacent_comm (a b : String) : adjacent a b = adjacent b a := by
  unfold adjacent
  have hrow : (rowOf a == rowOf b) = (rowOf b == rowOf a) := by
    by_cases h : rowOf a = rowOf b
    · simp [h]
    · have h2 : ¬ rowOf b = rowOf a := fun h3 => h h3.symm
      simp [h, h2]
  rw [hrow]
  cases colOf a <;> cases colOf b <;> simp [Bool.or_comm]

theorem snapshotInv_initial (bus : Bus) : SnapshotInv bus initialScreen := by
  refine ⟨?_, ?_, ?_⟩
  · intro s hs
    simp [initialScreen] at hs
  · intro cur hcur
    simp [initialScreen] at hcur
  · intro s hs
    simp [initialScreen] at hs

theorem snapshotInv_toggle (bus : Bus) (st : Screen) (seat : Seat) (hseat : seat ∈ bus.seats)
    (hinv : SnapshotInv bus st) :
    SnapshotInv bus { st with selectedSeats := toggleSeatSelection st.selectedSeats seat } := by
  obtain ⟨h1, h2, h3⟩ := hinv
  refine ⟨?_, h2, ?_⟩
  · intro s hs
    rcases mem_toggleSeatSelection st.selectedSeats seat s hs with h | h
    · exact h1 s h
    · exact ⟨seat, hseat, by rw [h], by rw [h]⟩
  · intro s hs hg hn
    rcases mem_toggleSeatSelection st.selectedSeats seat s hs with h | h
    · exact h3 s h hg hn
    · rw [h] at hg
      simp [truthy] at hg

theorem snapshotInv_handleGenderSelection (bus : Bus) (st : Screen) (gender : String)
    (huniq : (bus.seats.map (fun s => s.seatNumber)).Nodup) (hinv : SnapshotInv bus st) :
    SnapshotInv bus (handleGenderSelection st gender).1 := by
  cases hcur : st.currentSeatForGender with
  | none =>
    rw [handleGenderSelection_no_current st gender hcur]
    exact hinv
  | some cur =>
    cases hconf : (truthy cur.neighborGender && (cur.neighborGender != some gender))
    · rw [handleGenderSelection_of_no_conflict st cur gender hcur hconf]
      obtain ⟨h1, h2, h3⟩ := hinv
      refine ⟨?_, ?_, ?_⟩
      · intro s2 hs2
        obtain ⟨s, hs, hss⟩ := List.mem_map.1 hs2
        obtain ⟨b, hb, hbn, hbg⟩ := h1 s hs
        refine ⟨b, hb, ?_, ?_⟩
        · rw [← hss, hbn]
          by_cases h : s.seatNumber = cur.seatNumber <;> simp [h]
        · rw [← hss, hbg]
          by_cases h : s.seatNumber = cur.seatNumber <;> simp [h]
      · intro c hc
        simp at hc
      · intro s2 hs2 hg hn
        obtain ⟨s, hs, hss⟩ := List.mem_map.1 hs2
        by_cases h : s.seatNumber = cur.seatNumber
        · have hs2eq : s2 = { s with gender := some gender } := by
            rw [← hss]
            simp [h]
          obtain ⟨b, hb, hbn, hbg⟩ := h1 s hs
          obtain ⟨c, hc, hcn, hcg⟩ := h2 cur hcur
          have hbc : b = c :=
            List.inj_on_of_nodup_map huniq hb hc (by rw [hbn, hcn, h])
          have hnG : s.neighborGender = cur.neighborGender := by
            rw [← hbg, ← hcg, hbc]
          rw [hs2eq] at hn ⊢
          simp only at hn ⊢
          rw [hnG] at hn ⊢
          rw [hn] at hconf
          simp only [Bool.true_and, bne_eq_false_iff_eq] at hconf
          exact hconf.symm
        · have hs2eq : s2 = s := by
            rw [← hss]
            simp [h]
          rw [hs2eq] at hg hn ⊢
          exact h3 s hs hg hn
    · rw [handleGenderSelection_of_conflict st cur gender hcur hconf]
      exact hinv

theorem snapshotInv_step (bus : Bus) (st : Screen) (e : Event)
    (huniq : (bus.seats.map (fun s => s.seatNumber)).Nodup) (hinv : SnapshotInv bus st) :
    SnapshotInv bus (step bus st e) := by
  cases e with
  | tapSeat i =>
    simp only [step]
    cases hget : bus.seats.get? i with
    | none => exact hinv
    | some seat => exact snapshotInv_toggle bus st seat (List.get?_mem hget) hinv
  | tapChip i =>
    simp only [step]
    cases hget : st.selectedSeats.get? i with
    | none => exact hinv
    | some seat =>
      obtain ⟨h1, _, h3⟩ := hinv
      refine ⟨h1, ?_, h3⟩
      intro cur hcur
      simp only [pressChip, Option.some.injEq] at hcur
      rw [← hcur]
      exact h1 seat (List.get?_mem hget)
  | pressMale => exact snapshotInv_handleGenderSelection bus st "M" huniq hinv
  | pressFemale => exact snapshotInv_handleGenderSelection bus st "F" huniq hinv
  | cancelModal =>
    obtain ⟨h1, _, h3⟩ := hinv
    refine ⟨h1, ?_, h3⟩
    intro cur hcur
    simp [step, closeGenderModal] at hcur

theorem snapshotInv_run (bus : Bus) (evs : List Event) (st : Screen)
    (huniq : (bus.seats.map (fun s => s.seatNumber)).Nodup) (hinv : SnapshotInv bus st) :
    SnapshotInv bus (run bus st evs) := by
  induction evs generalizing st with
  | nil => exact hinv
  | cons e es ih => exact ih (step bus st e) (snapshotInv_step bus st e huniq hinv)

/-- Counterexample to C4 as stated: on a row of two free seats (the rule holds
on the loaded map and every `neighborGender` is as derived), both seats are
selected, `R1-1` is given `M` and `R1-2` is given `F`; both assignments are
accepted and the two adjacent seats end with different genders. -/
theorem adjacent_selected_seats_conflict :
    genderRuleHolds busFree [] = true ∧
    neighborGenderDerived busFree = true ∧
    allAccepted busFree initialScreen
      [Event.tapSeat 0, Event.tapSeat 1, Event.tapChip 0, Event.pressMale,
       Event.tapChip 1, Event.pressFemale] = true ∧
    (run busFree initialScreen
      [Event.tapSeat 0, Event.tapSeat 1, Event.tapChip 0, Event.pressMale,
       Event.tapChip 1, Event.pressFemale]).selectedSeats =
      [{ seatNumber := "R1-1", booked := false, gender := some "M", neighborGender := none },
       { seatNumber := "R1-2", booked := false, gender := some "F", neighborGender := none }] ∧
    adjacent "R1-1" "R1-2" = true ∧
    genderRuleHolds busFree (run busFree initialScreen
      [Event.tapSeat 0, Event.tapSeat 1, Event.tapChip 0, Event.pressMale,
       Event.tapChip 1, Event.pressFemale]).selectedSeats = false := by
  refine ⟨?_, ?_, ?_, ?_, ?_, ?_⟩ <;> decide

/-- C4 (amended): on a seat map with unique seat numbers whose booked seats
satisfy the rule and whose `neighborGender` fields show the booked neighbours,
after any sequence of presses every selected seat whose gender and
`neighborGender` are both set has them equal, and every pair of adjacent seats
of which one is booked in the loaded map and the other is booked or assigned
holds equal genders.  Two seats selected in the same session are not compared
with each other. -/
theorem accepted_genders_agree_with_booked_neighbours (bus : Bus) (evs : List Event)
    (huniq : (bus.seats.map (fun s => s.seatNumber)).Nodup)
    (hder : neighborGenderDerived bus = true)
    (hrule : genderRuleHolds bus [] = true) :
    (∀ s ∈ (run bus initialScreen evs).selectedSeats,
      truthy s.gender = true → truthy s.neighborGender = true →
        s.gender = s.neighborGender) ∧
    (∀ a ∈ bookedSeats bus,
      ∀ b ∈ bookedSeats bus ++ assignedSeats (run bus initialScreen evs).selectedSeats,
        (adjacent a.seatNumber b.seatNumber = true ∨ adjacent b.seatNumber a.seatNumber = true) →
          a.gender = b.gender) := by
  obtain ⟨h1, _, h3⟩ := snapshotInv_run bus evs initialScreen huniq (snapshotInv_initial bus)
  refine ⟨h3, ?_⟩
  intro a ha b hb hadj
  have hadj2 : adjacent a.seatNumber b.seatNumber = true := by
    rcases hadj with h | h
    · exact h
    · rw [adjacent_comm]
      exact h
  rcases List.mem_append.1 hb with hbb | hbs
  · simp only [genderRuleHolds, assignedSeats, List.filter_nil, List.append_nil,
      List.all_eq_true] at hrule
    have := hrule a ha b hbb
    simpa [hadj2] using this
  · obtain ⟨hbsel, hbg⟩ := List.mem_filter.1 hbs
    obtain ⟨c, hc, hcn, hcg⟩ := h1 b hbsel
    simp only [neighborGenderDerived, List.all_eq_true] at hder
    have hca := hder c hc a ha
    rw [hcn, adjacent_comm, hadj2] at hca
    simp at hca
    have hatr : truthy a.gender = true := by
      have := (List.mem_filter.1 ha).2
      simp only [Bool.and_eq_true] at this
      exact this.2
    have hbn : b.neighborGender = a.gender := by rw [← hcg, hca]
    have := h3 b hbsel hbg (by rw [hbn]; exact hatr)
    rw [this, hbn]

/-- Witness of C4 (amended), Scenario B: `R1-1` is booked by a woman, `R1-2` is
selected and given `F`. -/
theorem accepted_genders_agree_with_booked_neighbours_witness :
    (∀ s ∈ (run busB initialScreen
        [Event.tapSeat 1, Event.tapChip 0, Event.pressMale, Event.pressFemale]).selectedSeats,
      truthy s.gender = true → truthy s.neighborGender = true →
        s.gender = s.neighborGender) ∧
    (∀ a ∈ bookedSeats busB,
      ∀ b ∈ bookedSeats busB ++ assignedSeats (run busB initialScreen
        [Event.tapSeat 1, Event.tapChip 0, Event.pressMale, Event.pressFemale]).selectedSeats,
        (adjacent a.seatNumber b.seatNumber = true ∨ adjacent b.seatNumber a.seatNumber = true) →
          a.gender = b.gender) :=
  accepted_genders_agree_with_booked_neighbours busB
    [Event.tapSeat 1, Event.tapChip 0, Event.pressMale, Event.pressFemale]
    (by decide) (by decide) (by decide)

/-! ### Ticket issuance -/

theorem handleTicketGeneration_commit_error (apiBaseUrl : String) (backend : Backend)
    (props : PaymentProps) (seat : Seat) (rest : List Seat) (err : String)
    (hsel : props.selectedSeats = some (seat :: rest))
    (hcommit : backend.updateSeatStatus (seatPayload props (seat :: rest)) = Except.error err) :
    handleTicketGeneration apiBaseUrl backend props =
      [Effect.patch "/bus/update-seat-status" (seatPayload props (seat :: rest)),
       Effect.consoleError "Error generating tickets:" err,
       Effect.toast bookingErrorToast] := by
  simp only [handleTicketGeneration, hsel, hcommit]

theorem handleTicketGeneration_ticket_error (apiBaseUrl : String) (backend : Backend)
    (props : PaymentProps) (seat : Seat) (rest : List Seat) (err : String)
    (hsel : props.selectedSeats = some (seat :: rest))
    (hcommit : backend.updateSeatStatus (seatPayload props (seat :: rest)) = Except.ok ())
    (hticket : backend.generateTicket (ticketBody props (seat :: rest)) = Except.error err) :
    handleTicketGeneration apiBaseUrl backend props =
      [Effect.patch "/bus/update-seat-status" (seatPayload props (seat :: rest)),
       Effect.post (apiBaseUrl ++ "/ticket/generate") (ticketBody props (seat :: rest)),
       Effect.consoleError "Error generating tickets:" err,
       Effect.toast bookingErrorToast] := by
  simp only [handleTicketGeneration, hsel, hcommit, hticket]

theorem handleTicketGeneration_both_ok (apiBaseUrl : String) (backend : Backend)
    (props : PaymentProps) (seat : Seat) (rest : List Seat)
    (hsel : props.selectedSeats = some (seat :: rest))
    (hcommit : backend.updateSeatStatus (seatPayload props (seat :: rest)) = Except.ok ())
    (hticket : backend.generateTicket (ticketBody props (seat :: rest)) = Except.ok ()) :
    handleTicketGeneration apiBaseUrl backend props =
      [Effect.patch "/bus/update-seat-status" (seatPayload props (seat :: rest)),
       Effect.post (apiBaseUrl ++ "/ticket/generate") (ticketBody props (seat :: rest)),
       Effect.toast ticketSuccessToast,
       Effect.navigate "MainTabs" "Ticket"] := by
  simp only [handleTicketGeneration, hsel, hcommit, hticket]

/-- Counterexample to C9 as stated: for the same selection, a run whose seat
commit throws and a run whose seat commit answers and whose ticket generation
throws show the user exactly the same thing, one error toast with the same
text. -/
theorem handleTicketGeneration_failures_reported_alike :
    reported (handleTicketGeneration "https://api" commitFails propsFree) =
      reported (handleTicketGeneration "https://api" ticketFails propsFree) ∧
    reported (handleTicketGeneration "https://api" commitFails propsFree) =
      [Effect.toast { type := "error",
                      text1 := some "Something went wrong while booking tickets.",
                      text2 := none }] := by
  constructor <;> decide

/-- C9 (amended): after a successful payment with a non-empty selection, a
failed seat commit and a failed ticket generation (after a seat commit that
went through) show the user the same single toast, "Something went wrong while
booking tickets.", and neither navigates; the two runs differ only in the
thrown error that the console line under the common label carries, and in the
ticket request having been sent. -/
theorem handleTicketGeneration_failures_same_toast (apiBaseUrl : String)
    (backend1 backend2 : Backend) (props : PaymentProps) (seat : Seat) (rest : List Seat)
    (err1 err2 : String)
    (hsel : props.selectedSeats = some (seat :: rest))
    (hcommit1 : backend1.updateSeatStatus (seatPayload props (seat :: rest)) = Except.error err1)
    (hcommit2 : backend2.updateSeatStatus (seatPayload props (seat :: rest)) = Except.ok ())
    (hticket2 : backend2.generateTicket (ticketBody props (seat :: rest)) = Except.error err2) :
    reported (handleTicketGeneration apiBaseUrl backend1 props) =
      [Effect.toast bookingErrorToast] ∧
    reported (handleTicketGeneration apiBaseUrl backend2 props) =
      [Effect.toast bookingErrorToast] ∧
    consoleLines (handleTicketGeneration apiBaseUrl backend1 props) =
      [Effect.consoleError "Error generating tickets:" err1] ∧
    consoleLines (handleTicketGeneration apiBaseUrl backend2 props) =
      [Effect.consoleError "Error generating tickets:" err2] ∧
    ticketRequests (handleTicketGeneration apiBaseUrl backend1 props) = [] ∧
    ticketRequests (handleTicketGeneration apiBaseUrl backend2 props) =
      [Effect.post (apiBaseUrl ++ "/ticket/generate") (ticketBody props (seat :: rest))] := by
  rw [handleTicketGeneration_commit_error apiBaseUrl backend1 props seat rest err1 hsel hcommit1,
    handleTicketGeneration_ticket_error apiBaseUrl backend2 props seat rest err2 hsel hcommit2
      hticket2]
  simp [reported, consoleLines, ticketRequests]

/-- Witness of C9 (amended): the two failing backends on the selection
`selFree`. -/
theorem handleTicketGeneration_failures_same_toast_witness :
    reported (handleTicketGeneration "https://api" commitFails propsFree) =
      [Effect.toast bookingErrorToast] ∧
    reported (handleTicketGeneration "https://api" ticketFails propsFree) =
      [Effect.toast bookingErrorToast] ∧
    consoleLines (handleTicketGeneration "https://api" commitFails propsFree) =
      [Effect.consoleError "Error generating tickets:" "Network Error"] ∧
    consoleLines (handleTicketGeneration "https://api" ticketFails propsFree) =
      [Effect.consoleError "Error generating tickets:" "Network Error"] ∧
    ticketRequests (handleTicketGeneration "https://api" commitFails propsFree) = [] ∧
    ticketRequests (handleTicketGeneration "https://api" ticketFails propsFree) =
      [Effect.post ("https://api" ++ "/ticket/generate") (ticketBody propsFree selFree)] :=
  handleTicketGeneration_failures_same_toast "https://api" commitFails ticketFails propsFree
    { seatNumber := "R1-1", booked := false, gender := some "M", neighborGender := none }
    [{ seatNumber := "R1-2", booked := false, gender := some "M", neighborGender := none }]
    "Network Error" "Network Error" rfl rfl rfl rfl

/-- C10: for a non-empty selection and any answers of the two backend calls,
`handleTicketGeneration` shows the success toast and navigates to the ticket
view if and only if both the seat commit and the ticket generation answer; the
seat-commit request is sent exactly once whatever happens, and when it throws no
ticket-generation request is sent. -/
theorem handleTicketGeneration_success_iff (apiBaseUrl : String) (backend : Backend)
    (props : PaymentProps) (seat : Seat) (rest : List Seat)
    (hsel : props.selectedSeats = some (seat :: rest)) :
    (succeeded (handleTicketGeneration apiBaseUrl backend props) = true ↔
      (backend.updateSeatStatus (seatPayload props (seat :: rest)) = Except.ok () ∧
        backend.generateTicket (ticketBody props (seat :: rest)) = Except.ok ())) ∧
    commitRequests (handleTicketGeneration apiBaseUrl backend props) =
      [Effect.patch "/bus/update-seat-status" (seatPayload props (seat :: rest))] ∧
    (∀ err, backend.updateSeatStatus (seatPayload props (seat :: rest)) = Except.error err →
      ticketRequests (handleTicketGeneration apiBaseUrl backend props) = []) := by
  cases hcommit : backend.updateSeatStatus (seatPayload props (seat :: rest)) with
  | error err =>
    rw [handleTicketGeneration_commit_error apiBaseUrl backend props seat rest err hsel hcommit]
    refine ⟨?_, ?_, ?_⟩
    · simp [succeeded, bookingErrorToast, ticketSuccessToast]
    · simp [commitRequests]
    · intro _ _
      simp [ticketRequests]
  | ok u =>
    cases u
    cases hticket : backend.generateTicket (ticketBody props (seat :: rest)) with
    | error err =>
      rw [handleTicketGeneration_ticket_error apiBaseUrl backend props seat rest err hsel hcommit
        hticket]
      refine ⟨?_, ?_, ?_⟩
      · simp [succeeded, bookingErrorToast, ticketSuccessToast]
      · simp [commitRequests]
      · intro _ h
        simp at h
    | ok v =>
      cases v
      rw [handleTicketGeneration_both_ok apiBaseUrl backend props seat rest hsel hcommit hticket]
      refine ⟨?_, ?_, ?_⟩
      · simp [succeeded]
      · simp [commitRequests]
      · intro _ h
        simp at h

/-- Witness of C10: both calls answer on the selection `selFree`. -/
theorem handleTicketGeneration_success_iff_witness :
    (succeeded (handleTicketGeneration "https://api" bothSucceed propsFree) = true ↔
      (bothSucceed.updateSeatStatus (seatPayload propsFree selFree) = Except.ok () ∧
        bothSucceed.generateTicket (ticketBody propsFree selFree) = Except.ok ())) ∧
    commitRequests (handleTicketGeneration "https://api" bothSucceed propsFree) =
      [Effect.patch "/bus/update-seat-status" (seatPayload propsFree selFree)] ∧
    (∀ err, bothSucceed.updateSeatStatus (seatPayload propsFree selFree) = Except.error err →
      ticketRequests (handleTicketGeneration "https://api" bothSucceed propsFree) = []) :=
  handleTicketGeneration_success_iff "https://api" bothSucceed propsFree
    { seatNumber := "R1-1", booked := false, gender := some "M", neighborGender := none }
    [{ seatNumber := "R1-2", booked := false, gender := some "M", neighborGender := none }]
    rfl

/-! ### The payment sheet -/

theorem loadingAfter_append_setLoading (loading value : Bool) (effects : List PaymentEffect) :
    loadingAfter loading (effects ++ [PaymentEffect.setLoading value]) = value := by
  induction effects generalizing loading with
  | nil => rfl
  | cons e es ih =>
    cases e <;> simp only [List.cons_append, loadingAfter] <;> exact ih _

theorem initializePaymentSheet_clears_loading (intents : IntentBackend) (provider : Provider)
    (amount : JsNumber) (adminId : Option String) (props : PaymentProps) (loading : Bool) :
    loadingAfter loading (initializePaymentSheet intents provider amount adminId props) =
      false := by
  unfold initializePaymentSheet
  exact loadingAfter_append_setLoading loading false _

theorem openPaymentSheet_while_loading (apiBaseUrl : String) (backend : Backend)
    (provider : Provider) (props : PaymentProps) :
    openPaymentSheet apiBaseUrl backend provider true props = [] := by
  simp [openPaymentSheet]

theorem payNowAfterInitialization_presents (apiBaseUrl : String) (intents : IntentBackend)
    (backend : Backend) (provider : Provider) (amount : JsNumber) (adminId : Option String)
    (props : PaymentProps) :
    (payNowAfterInitialization apiBaseUrl intents backend provider amount adminId props).head? =
      some PaymentEffect.presentSheet := by
  unfold payNowAfterInitialization
  rw [initializePaymentSheet_clears_loading]
  simp [openPaymentSheet]

/-- C11, the code at the failing inputs: when `initPaymentSheet` reports an
error the initialization is not ready, yet `loading` ends `false` and a press of
"Pay Now" calls `presentPaymentSheet`; the same happens when the payment-intent
request throws, and with a provider whose `presentPaymentSheet` then reports no
error the press goes on to ticket generation and the ticket view. -/
theorem payNow_presents_after_failed_initialization :
    initializationReady intentsOk providerInitError (JsNumber.whole 2400) (some "a1") propsFree = false ∧
    loadingAfter false
      (initializePaymentSheet intentsOk providerInitError (JsNumber.whole 2400) (some "a1") propsFree) = false ∧
    payNowAfterInitialization "https://api" intentsOk bothSucceed providerInitError
        (JsNumber.whole 2400) (some "a1") propsFree =
      [PaymentEffect.presentSheet,
       PaymentEffect.toast { type := "error", text1 := some "Payment Failed!",
                             text2 := some "Payment sheet not initialized" }] ∧
    initializationReady intentsFail providerOk (JsNumber.whole 2400) (some "a1") propsFree = false ∧
    initializePaymentSheet intentsFail providerOk (JsNumber.whole 2400) (some "a1") propsFree =
      [PaymentEffect.setLoading true,
       PaymentEffect.postIntent "/payment/create-payment-intent"
         { amount := JsNumber.whole 2400, busId := "b1", userId := some "u1",
           adminId := some "a1" },
       PaymentEffect.toast { type := "error", text1 := some "Unable to initialize payment.",
                             text2 := none },
       PaymentEffect.setLoading false] ∧
    payNowAfterInitialization "https://api" intentsFail bothSucceed providerOk
        (JsNumber.whole 2400) (some "a1") propsFree =
      [PaymentEffect.presentSheet,
       PaymentEffect.ticketGeneration
         [Effect.patch "/bus/update-seat-status" (seatPayload propsFree selFree),
          Effect.post "https://api/ticket/generate" (ticketBody propsFree selFree),
          Effect.toast ticketSuccessToast,
          Effect.navigate "MainTabs" "Ticket"]] := by
  refine ⟨?_, ?_, ?_, ?_, ?_, ?_⟩ <;> decide

/-! ### The seat-commit request -/

/-- C12: for a non-empty selection, the first thing `handleTicketGeneration`
does is send one `PATCH /bus/update-seat-status` whose body carries the `busId`
of the props and a `seatsData` list with one entry per selected seat in the same
order, the entry at each position holding that seat's `seatNumber`,
`booked = true`, the rider's email and that seat's gender. -/
theorem handleTicketGeneration_commit_request (apiBaseUrl : String) (backend : Backend)
    (props : PaymentProps) (seat : Seat) (rest : List Seat)
    (hsel : props.selectedSeats = some (seat :: rest)) :
    (handleTicketGeneration apiBaseUrl backend props).head? =
      some (Effect.patch "/bus/update-seat-status" (seatPayload props (seat :: rest))) ∧
    commitRequests (handleTicketGeneration apiBaseUrl backend props) =
      [Effect.patch "/bus/update-seat-status" (seatPayload props (seat :: rest))] ∧
    (seatPayload props (seat :: rest)).busId = props.busId ∧
    (seatPayload props (seat :: rest)).seatsData.length = (seat :: rest).length ∧
    (∀ (i : Nat) (s : Seat), (seat :: rest)[i]? = some s →
      (seatPayload props (seat :: rest)).seatsData[i]? =
        some { seatNumber := s.seatNumber, booked := true, email := props.email,
               gender := s.gender }) := by
  have hshape : (seatPayload props (seat :: rest)).busId = props.busId ∧
      (seatPayload props (seat :: rest)).seatsData.length = (seat :: rest).length ∧
      (∀ (i : Nat) (s : Seat), (seat :: rest)[i]? = some s →
        (seatPayload props (seat :: rest)).seatsData[i]? =
          some { seatNumber := s.seatNumber, booked := true, email := props.email,
                 gender := s.gender }) := by
    refine ⟨rfl, by simp [seatPayload], ?_⟩
    intro i s hs
    simp only [seatPayload, List.getElem?_map, hs, Option.map_some']
  cases hcommit : backend.updateSeatStatus (seatPayload props (seat :: rest)) with
  | error err =>
    rw [handleTicketGeneration_commit_error apiBaseUrl backend props seat rest err hsel hcommit]
    exact ⟨rfl, by simp [commitRequests], hshape⟩
  | ok u =>
    cases u
    cases hticket : backend.generateTicket (ticketBody props (seat :: rest)) with
    | error err =>
      rw [handleTicketGeneration_ticket_error apiBaseUrl backend props seat rest err hsel hcommit
        hticket]
      exact ⟨rfl, by simp [commitRequests], hshape⟩
    | ok v =>
      cases v
      rw [handleTicketGeneration_both_ok apiBaseUrl backend props seat rest hsel hcommit hticket]
      exact ⟨rfl, by simp [commitRequests], hshape⟩

/-- Witness of C12: the selection `selFree` against a backend whose ticket
generation throws. -/
theorem handleTicketGeneration_commit_request_witness :
    (handleTicketGeneration "https://api" ticketFails propsFree).head? =
      some (Effect.patch "/bus/update-seat-status" (seatPayload propsFree selFree)) ∧
    commitRequests (handleTicketGeneration "https://api" ticketFails propsFree) =
      [Effect.patch "/bus/update-seat-status" (seatPayload propsFree selFree)] ∧
    (seatPayload propsFree selFree).busId = propsFree.busId ∧
    (seatPayload propsFree selFree).seatsData.length = selFree.length ∧
    (∀ (i : Nat) (s : Seat), selFree[i]? = some s →
      (seatPayload propsFree selFree).seatsData[i]? =
        some { seatNumber := s.seatNumber, booked := true, email := propsFree.email,
               gender := s.gender }) :=
  handleTicketGeneration_commit_request "https://api" ticketFails propsFree
    { seatNumber := "R1-1", booked := false, gender := some "M", neighborGender := none }
    [{ seatNumber := "R1-2", booked := false, gender := some "M", neighborGender := none }]
    rfl

end TapAndTravel
